import Mathlib

/-!
Shallow embedding of the configuration cache-aside path of
zgsm-ai/client-manager.

The embedded code is `ConfigDAO` (GetConfiguration, GetSpecificConfiguration,
CreateConfiguration, UpdateConfiguration, DeleteConfiguration) and the
service-level `ConfigService.CreateConfiguration`.

Modelling conventions:
- The durable store (GORM) is a list of rows with a soft-delete flag;
  `First` scans live rows in order; `Create` appends (auto-assigning an id
  when the given one is zero); `Save` replaces the live row with the same id;
  `Delete` sets the soft-delete flag. `First` with no match is
  `gorm.ErrRecordNotFound`, modelled as `OpError.recordNotFound`.
- The cache (Redis) is a list of entries with absolute expiry times, driven
  by an explicit clock `now`; `Get` distinguishes a hit, the miss sentinel
  (`redis.Nil`) and any other error. Operational failures of the external
  cache and store clients are injected through a `Faults` record, one flag
  per call site, so that the error-handling branches of the Go code are
  reachable in the model.
- `dao.redis != nil` is the boolean `redisAvail`; `logrus` warnings are an
  append-only list of message strings in the world state.
-/

/-- Mirror of `models.Configuration`: namespace/key composite natural key,
string value, description, timestamps and surrogate id. -/
structure Configuration where
  ID : Nat
  Namespace : String
  Key : String
  Value : String
  Description : String
  CreatedAt : Nat
  UpdatedAt : Nat
deriving Repr, DecidableEq

/-- One durable-store row: the record plus its soft-delete tombstone flag. -/
structure DBRow where
  cfg : Configuration
  deleted : Bool
deriving Repr, DecidableEq

/-- One cache entry: key, raw string value, absolute expiry instant. -/
structure CacheEntry where
  key : String
  val : String
  expiry : Nat
deriving Repr, DecidableEq

/-- Combined external state: durable store rows, cache entries, warn log. -/
structure World where
  db : List DBRow
  cache : List CacheEntry
  logs : List String
deriving Repr, DecidableEq

/-- Injected operational failures of the external collaborators, one flag
per call site of the Go code. -/
structure Faults where
  getFails : Bool
  setFails : Bool
  delFails : Bool
  createFails : Bool
  saveFails : Bool
  deleteFails : Bool
deriving Repr, DecidableEq

/-- Error taxonomy of the embedded paths: `recordNotFound` is
`gorm.ErrRecordNotFound`; `storeFailure` is an opaque store error;
the last three are the service error types of `part_004`. -/
inductive OpError where
  | recordNotFound
  | storeFailure
  | validationFailed (field : String)
  | conflict
  | notFound
deriving Repr, DecidableEq

/-- Go `time.Minute` in nanoseconds. -/
def timeMinute : Nat := 60 * 1000000000

/-- The fixed cache TTL: `5*time.Minute` in the Go source. -/
def cacheTTL : Nat := 5 * timeMinute

/-- Composite cache key: `"config:" + namespace + ":" + key`. -/
def cacheKey (ns key : String) : String := "config:" ++ ns ++ ":" ++ key

/-- First cache entry stored under key `k`, if any. -/
def cacheLookup : List CacheEntry → String → Option CacheEntry
  | [], _ => none
  | e :: rest, k => if e.key = k then some e else cacheLookup rest k

/-- Outcome of `redis.Get`: hit, the `redis.Nil` miss sentinel, or any
other (operational) error. -/
inductive GetResult where
  | hit (v : String)
  | missNil
  | errOther
deriving Repr, DecidableEq

/-- Model of `redis.Get(ctx, k)`: an injected fault yields a non-Nil error; an
absent or expired entry yields `redis.Nil`; otherwise the stored value. -/
def redisGet (f : Faults) (now : Nat) (cache : List CacheEntry) (k : String) :
    GetResult :=
  if f.getFails = true then .errOther
  else
    match cacheLookup cache k with
    | some e => if now < e.expiry then .hit e.val else .missNil
    | none => .missNil

/-- Model of `redis.Set(ctx, k, v, ttl)` on success: replace any entry under `k`
with one expiring at `expiry`. -/
def cacheStore (cache : List CacheEntry) (k v : String) (expiry : Nat) :
    List CacheEntry :=
  { key := k, val := v, expiry := expiry } :: cache.filter (fun e => e.key ≠ k)

/-- Model of `redis.Del(ctx, k)` on success: drop every entry under `k`. -/
def cacheRemove (cache : List CacheEntry) (k : String) : List CacheEntry :=
  cache.filter (fun e => e.key ≠ k)

/-- Model of `db.Where("namespace = ? AND key = ?").First`: first live row matching
the composite key. -/
def dbFirst : List DBRow → String → String → Option Configuration
  | [], _, _ => none
  | r :: rest, ns, k =>
      if r.deleted = false ∧ r.cfg.Namespace = ns ∧ r.cfg.Key = k then some r.cfg
      else dbFirst rest ns k

/-- Model of `db.First(config, id)`: first live row with the given surrogate id. -/
def dbFirstById : List DBRow → Nat → Option Configuration
  | [], _ => none
  | r :: rest, id =>
      if r.deleted = false ∧ r.cfg.ID = id then some r.cfg
      else dbFirstById rest id

/-- Next auto-increment id for `db.Create`. -/
def nextId (db : List DBRow) : Nat :=
  (db.map (fun r => r.cfg.ID)).foldr max 0 + 1

/-- Model of `db.Create(config)` on success: append a live row, auto-assigning the
id when the given one is zero; returns the stored record. -/
def dbInsert (db : List DBRow) (cfg : Configuration) :
    List DBRow × Configuration :=
  let assigned := if cfg.ID = 0 then { cfg with ID := nextId db } else cfg
  (db ++ [{ cfg := assigned, deleted := false }], assigned)

/-- Model of `db.Save(config)` on success: full-record update of the live row with
the same primary key (insert when the primary key is zero). -/
def dbSave (db : List DBRow) (cfg : Configuration) : List DBRow :=
  if cfg.ID = 0 then (dbInsert db cfg).1
  else db.map (fun r =>
    if r.cfg.ID = cfg.ID ∧ r.deleted = false then { cfg := cfg, deleted := false }
    else r)

/-- Model of `db.Delete(&config)` on success: soft-delete the live rows with the
primary key of the record, keeping the tombstones. -/
def dbSoftDelete (db : List DBRow) (id : Nat) : List DBRow :=
  db.map (fun r =>
    if r.cfg.ID = id ∧ r.deleted = false then { r with deleted := true } else r)

/-- Shared tail of `ConfigDAO.GetConfiguration` and
`ConfigDAO.GetSpecificConfiguration` (textually duplicated in the Go
source): query the durable store, then opportunistically populate the
cache with the fixed TTL, logging and ignoring a population failure. -/
def getFromDB (redisAvail : Bool) (f : Faults) (now : Nat) (w : World)
    (ns key : String) : Except OpError Configuration × World :=
  match dbFirst w.db ns key with
  | none => (Except.error OpError.recordNotFound, w)
  | some cfg =>
      if redisAvail = true then
        if f.setFails = true then
          (Except.ok cfg,
            { w with logs := w.logs ++ ["Failed to cache configuration"] })
        else
          (Except.ok cfg,
            { w with cache := (cacheStore w.cache (cacheKey ns key) cfg.Value
                (now + cacheTTL)) })
      else (Except.ok cfg, w)

/-- Embedding of `ConfigDAO.GetConfiguration`: cache-aside read. On a cache hit the
result record is synthesized from the cached value and the supplied
namespace/key, all other fields zero-valued; on the miss sentinel or any
other cache error (logged) it falls through to the durable store. -/
def GetConfiguration (redisAvail : Bool) (f : Faults) (now : Nat) (w : World)
    (ns key : String) : Except OpError Configuration × World :=
  if redisAvail = true then
    match redisGet f now w.cache (cacheKey ns key) with
    | .hit v =>
        (Except.ok { ID := 0, Namespace := ns, Key := key, Value := v,
                     Description := "", CreatedAt := 0, UpdatedAt := 0 }, w)
    | .missNil => getFromDB redisAvail f now w ns key
    | .errOther =>
        getFromDB redisAvail f now
          { w with logs := w.logs ++ ["Redis get failed, falling back to database"] }
          ns key
  else getFromDB redisAvail f now w ns key

/-- Embedding of `ConfigDAO.GetSpecificConfiguration`: identical body to
`ConfigDAO.GetConfiguration` in the Go source. -/
def GetSpecificConfiguration (redisAvail : Bool) (f : Faults) (now : Nat)
    (w : World) (ns key : String) : Except OpError Configuration × World :=
  if redisAvail = true then
    match redisGet f now w.cache (cacheKey ns key) with
    | .hit v =>
        (Except.ok { ID := 0, Namespace := ns, Key := key, Value := v,
                     Description := "", CreatedAt := 0, UpdatedAt := 0 }, w)
    | .missNil => getFromDB redisAvail f now w ns key
    | .errOther =>
        getFromDB redisAvail f now
          { w with logs := w.logs ++ ["Redis get failed, falling back to database"] }
          ns key
  else getFromDB redisAvail f now w ns key

/-- Embedding of `ConfigDAO.CreateConfiguration`: insert into the durable store first;
only on success delete (not overwrite) the cache entry under the composite
key of the record, logging and ignoring a deletion failure. The Go code
returns the stored record through the `*models.Configuration` argument;
here it is returned in the `ok` payload. -/
def CreateConfiguration (redisAvail : Bool) (f : Faults) (w : World)
    (cfg : Configuration) : Except OpError Configuration × World :=
  if f.createFails = true then (Except.error OpError.storeFailure, w)
  else
    let ins := dbInsert w.db cfg
    let w1 := { w with db := ins.1 }
    if redisAvail = true then
      if f.delFails = true then
        (Except.ok ins.2,
          { w1 with logs := w1.logs ++ ["Failed to invalidate cache"] })
      else
        (Except.ok ins.2,
          { w1 with cache := (cacheRemove w1.cache
              (cacheKey cfg.Namespace cfg.Key)) })
    else (Except.ok ins.2, w1)

/-- Embedding of `ConfigDAO.UpdateConfiguration`: persist the full-record update first;
only on success overwrite the cache entry with the new value and the
fixed TTL, logging and ignoring an overwrite failure. -/
def UpdateConfiguration (redisAvail : Bool) (f : Faults) (now : Nat)
    (w : World) (cfg : Configuration) : Except OpError Unit × World :=
  if f.saveFails = true then (Except.error OpError.storeFailure, w)
  else
    let w1 := { w with db := dbSave w.db cfg }
    if redisAvail = true then
      if f.setFails = true then
        (Except.ok (),
          { w1 with logs := w1.logs ++ ["Failed to update cache"] })
      else
        (Except.ok (),
          { w1 with cache := (cacheStore w1.cache
              (cacheKey cfg.Namespace cfg.Key) cfg.Value (now + cacheTTL)) })
    else (Except.ok (), w1)

/-- Embedding of `ConfigDAO.DeleteConfiguration`: look up the row by id to recover its
composite key; on lookup failure return that error with nothing changed;
otherwise soft-delete the row and then invalidate the cache entry,
logging and ignoring an invalidation failure. -/
def DeleteConfiguration (redisAvail : Bool) (f : Faults) (w : World)
    (id : Nat) : Except OpError Unit × World :=
  match dbFirstById w.db id with
  | none => (Except.error OpError.recordNotFound, w)
  | some cfg =>
      if f.deleteFails = true then (Except.error OpError.storeFailure, w)
      else
        let w1 := { w with db := dbSoftDelete w.db id }
        if redisAvail = true then
          if f.delFails = true then
            (Except.ok (),
              { w1 with logs := w1.logs ++ ["Failed to invalidate cache"] })
          else
            (Except.ok (),
              { w1 with cache := (cacheRemove w1.cache
                  (cacheKey cfg.Namespace cfg.Key)) })
        else (Except.ok (), w1)

/-- The `map[string]interface{}` payload of
`ConfigService.CreateConfiguration`: `none` models an absent field or a
failed string type assertion. -/
structure CreateData where
  namespaceField : Option String
  keyField : Option String
  valueField : Option String
  descriptionField : Option String
deriving Repr, DecidableEq

/-- Embedding of `ConfigService.CreateConfiguration`: validate namespace and key,
check for a duplicate through the cache-aware
`ConfigDAO.GetSpecificConfiguration` (conflict exactly when that read
succeeds), then build the record with zero id and current timestamps and
insert it through `ConfigDAO.CreateConfiguration`. -/
def ConfigServiceCreateConfiguration (redisAvail : Bool) (f : Faults)
    (now : Nat) (w : World) (data : CreateData) :
    Except OpError Configuration × World :=
  match data.namespaceField with
  | none => (Except.error (OpError.validationFailed "namespace"), w)
  | some ns =>
    if ns = "" then (Except.error (OpError.validationFailed "namespace"), w)
    else
      match data.keyField with
      | none => (Except.error (OpError.validationFailed "key"), w)
      | some key =>
        if key = "" then (Except.error (OpError.validationFailed "key"), w)
        else
          let value := data.valueField.getD ""
          let description := data.descriptionField.getD ""
          let chk := GetSpecificConfiguration redisAvail f now w ns key
          match chk.1 with
          | Except.ok _ => (Except.error OpError.conflict, chk.2)
          | Except.error _ =>
              let cfg : Configuration :=
                { ID := 0, Namespace := ns, Key := key, Value := value,
                  Description := description, CreatedAt := now, UpdatedAt := now }
              let res := CreateConfiguration redisAvail f chk.2 cfg
              match res.1 with
              | Except.error e =>
                  (Except.error e,
                    { res.2 with
                        logs := res.2.logs ++ ["Failed to create configuration"] })
              | Except.ok created =>
                  (Except.ok created,
                    { res.2 with
                        logs := res.2.logs ++ ["Configuration created successfully"] })

deriving instance DecidableEq for Except

/-! ## Helper lemmas -/

theorem cacheLookup_cacheRemove (c : List CacheEntry) (k : String) :
    cacheLookup (cacheRemove c k) k = none := by
  induction c with
  | nil => rfl
  | cons e rest ih =>
      by_cases h : e.key = k
      · simpa [cacheRemove, h] using ih
      · simpa [cacheRemove, cacheLookup, h] using ih

theorem dbFirst_append_of_none {db : List DBRow} {ns key : String}
    (h : dbFirst db ns key = none) (r : DBRow) :
    dbFirst (db ++ [r]) ns key =
      (if r.deleted = false ∧ r.cfg.Namespace = ns ∧ r.cfg.Key = key
       then some r.cfg else none) := by
  induction db with
  | nil => rfl
  | cons s rest ih =>
      by_cases hs : s.deleted = false ∧ s.cfg.Namespace = ns ∧ s.cfg.Key = key
      · simp [dbFirst, hs] at h
      · simp only [dbFirst, hs, if_false] at h ⊢
        exact ih h

theorem dbFirstById_dbSoftDelete (db : List DBRow) (id : Nat) :
    dbFirstById (dbSoftDelete db id) id = none := by
  induction db with
  | nil => rfl
  | cons r rest ih =>
      by_cases h : r.cfg.ID = id ∧ r.deleted = false
      · simpa [dbSoftDelete, dbFirstById, h] using ih
      · have h2 : ¬ (r.deleted = false ∧ r.cfg.ID = id) := by tauto
        simpa [dbSoftDelete, dbFirstById, h, h2] using ih

theorem dbSoftDelete_length (db : List DBRow) (id : Nat) :
    (dbSoftDelete db id).length = db.length := by
  simp [dbSoftDelete]

theorem dbInsert_fields (db : List DBRow) (cfg : Configuration) :
    (dbInsert db cfg).2.Namespace = cfg.Namespace ∧
    (dbInsert db cfg).2.Key = cfg.Key ∧
    (dbInsert db cfg).2.Value = cfg.Value := by
  unfold dbInsert
  by_cases h : cfg.ID = 0 <;> simp [h]

theorem getFromDB_db_eq (ra : Bool) (f : Faults) (now : Nat) (w : World)
    (ns key : String) : (getFromDB ra f now w ns key).2.db = w.db := by
  unfold getFromDB
  cases hdb : dbFirst w.db ns key
  · rfl
  · cases ra <;> cases hs : f.setFails <;> simp [hs]

theorem GetSpecificConfiguration_db_eq (ra : Bool) (f : Faults) (now : Nat)
    (w : World) (ns key : String) :
    (GetSpecificConfiguration ra f now w ns key).2.db = w.db := by
  unfold GetSpecificConfiguration
  cases ra
  · simpa using getFromDB_db_eq false f now w ns key
  · cases hr : redisGet f now w.cache (cacheKey ns key)
    · simp
    · simpa using getFromDB_db_eq true f now w ns key
    · simpa using getFromDB_db_eq true f now
        { w with logs := w.logs ++ ["Redis get failed, falling back to database"] }
        ns key

/-! ## Concrete fixtures for witnesses and counterexamples -/

/-- Fault configuration with every external call succeeding. -/
def faultFree : Faults := ⟨false, false, false, false, false, false⟩

/-- Fault configuration where only `redis.Set` fails. -/
def setFaulty : Faults := ⟨false, true, false, false, false, false⟩

/-- Fault configuration where only `redis.Get` fails. -/
def getFaulty : Faults := ⟨true, false, false, false, false, false⟩

/-- A sample durable record. -/
def sampleCfg : Configuration := ⟨7, "ns1", "k1", "v1", "d", 1, 2⟩

/-- World holding only `sampleCfg`, with an empty cache. -/
def sampleWorld : World := ⟨[⟨sampleCfg, false⟩], [], []⟩

/-! ## Claims -/

/-- C1: for a (namespace, key) whose composite cache key is absent from the
cache, `ConfigDAO.GetConfiguration` returns exactly the record the durable
store holds for that pair; after the successful durable read it writes the value
back into the cache with the fixed 5-minute TTL, and a failure of that cache
population is only logged and does not fail the read. -/
theorem fetch_absent_key_reads_durable_store
    (f : Faults) (now : Nat) (w : World) (ns key : String) (cfg : Configuration)
    (hget : f.getFails = false)
    (habsent : cacheLookup w.cache (cacheKey ns key) = none)
    (hdb : dbFirst w.db ns key = some cfg) :
    (GetConfiguration true f now w ns key).1 = Except.ok cfg ∧
    (f.setFails = false →
      (GetConfiguration true f now w ns key).2 =
        { w with cache := (cacheStore w.cache (cacheKey ns key) cfg.Value
            (now + cacheTTL)) }) ∧
    (f.setFails = true →
      (GetConfiguration true f now w ns key).2 =
        { w with logs := w.logs ++ ["Failed to cache configuration"] }) := by
  cases hs : f.setFails <;>
    simp [GetConfiguration, redisGet, getFromDB, hget, habsent, hdb, hs]

/-- C1 witness: the theorem applied to `sampleWorld` at time 0. -/
theorem fetch_absent_key_reads_durable_store_witness :
    (GetConfiguration true faultFree 0 sampleWorld "ns1" "k1").1
        = Except.ok sampleCfg ∧
    (faultFree.setFails = false →
      (GetConfiguration true faultFree 0 sampleWorld "ns1" "k1").2 =
        { sampleWorld with cache := (cacheStore sampleWorld.cache
            (cacheKey "ns1" "k1") sampleCfg.Value (0 + cacheTTL)) }) ∧
    (faultFree.setFails = true →
      (GetConfiguration true faultFree 0 sampleWorld "ns1" "k1").2 =
        { sampleWorld with
            logs := sampleWorld.logs ++ ["Failed to cache configuration"] }) :=
  fetch_absent_key_reads_durable_store faultFree 0 sampleWorld "ns1" "k1"
    sampleCfg (by rfl) (by rfl) (by rfl)

/-- C2: when the cache get fails with an error other than the miss sentinel,
`ConfigDAO.GetConfiguration` still succeeds whenever the durable store holds
a row for the pair; the cache error is only logged as a warning, never
returned to the caller. -/
theorem fetch_cache_error_falls_through
    (f : Faults) (now : Nat) (w : World) (ns key : String) (cfg : Configuration)
    (hget : f.getFails = true)
    (hdb : dbFirst w.db ns key = some cfg) :
    (GetConfiguration true f now w ns key).1 = Except.ok cfg ∧
    "Redis get failed, falling back to database"
      ∈ (GetConfiguration true f now w ns key).2.logs := by
  cases hs : f.setFails <;>
    simp [GetConfiguration, redisGet, getFromDB, hget, hdb, hs]

/-- C2 witness: a failed cache get on `sampleWorld` still reads the row. -/
theorem fetch_cache_error_falls_through_witness :
    (GetConfiguration true getFaulty 0 sampleWorld "ns1" "k1").1
        = Except.ok sampleCfg ∧
    "Redis get failed, falling back to database"
      ∈ (GetConfiguration true getFaulty 0 sampleWorld "ns1" "k1").2.logs :=
  fetch_cache_error_falls_through getFaulty 0 sampleWorld "ns1" "k1" sampleCfg
    (by rfl) (by rfl)

/-- C6: on a cache hit, both `ConfigDAO.GetConfiguration` and
`ConfigDAO.GetSpecificConfiguration` return a record whose Value is the
cached string and whose Namespace/Key are the supplied arguments, with
description, timestamps and surrogate id zero-valued, leaving the world
unchanged. -/
theorem cache_hit_synthesized_record
    (f : Faults) (now : Nat) (w : World) (ns key v : String)
    (hhit : redisGet f now w.cache (cacheKey ns key) = GetResult.hit v) :
    GetConfiguration true f now w ns key =
      (Except.ok { ID := 0, Namespace := ns, Key := key, Value := v,
                   Description := "", CreatedAt := 0, UpdatedAt := 0 }, w) ∧
    GetSpecificConfiguration true f now w ns key =
      (Except.ok { ID := 0, Namespace := ns, Key := key, Value := v,
                   Description := "", CreatedAt := 0, UpdatedAt := 0 }, w) := by
  simp [GetConfiguration, GetSpecificConfiguration, hhit]

/-- C6 witness: a populated, unexpired cache entry is served verbatim. -/
theorem cache_hit_synthesized_record_witness :
    GetConfiguration true faultFree 0
        ⟨[⟨sampleCfg, false⟩], [⟨"config:ns1:k1", "cachedV", 9⟩], []⟩ "ns1" "k1" =
      (Except.ok { ID := 0, Namespace := "ns1", Key := "k1", Value := "cachedV",
                   Description := "", CreatedAt := 0, UpdatedAt := 0 },
       ⟨[⟨sampleCfg, false⟩], [⟨"config:ns1:k1", "cachedV", 9⟩], []⟩) ∧
    GetSpecificConfiguration true faultFree 0
        ⟨[⟨sampleCfg, false⟩], [⟨"config:ns1:k1", "cachedV", 9⟩], []⟩ "ns1" "k1" =
      (Except.ok { ID := 0, Namespace := "ns1", Key := "k1", Value := "cachedV",
                   Description := "", CreatedAt := 0, UpdatedAt := 0 },
       ⟨[⟨sampleCfg, false⟩], [⟨"config:ns1:k1", "cachedV", 9⟩], []⟩) :=
  cache_hit_synthesized_record faultFree 0
    ⟨[⟨sampleCfg, false⟩], [⟨"config:ns1:k1", "cachedV", 9⟩], []⟩
    "ns1" "k1" "cachedV" (by rfl)

/-- World with no rows, no cache entries and no logs. -/
def emptyWorld : World := ⟨[], [], []⟩

/-- World whose durable store holds one row for namespace "a", key "b:c". -/
def aliasWorld : World := ⟨[⟨⟨1, "a", "b:c", "v1", "", 0, 0⟩, false⟩], [], []⟩

/-- C10: the composite cache key is not injective: the distinct pairs
("a", "b:c") and ("a:b", "c") share one cache key, so the entry cached by a
fetch of the first pair is served as a cache hit for the second pair even
though the durable store has no row for it. -/
theorem cacheKey_not_injective :
    cacheKey "a" "b:c" = cacheKey "a:b" "c" ∧
    (("a", "b:c") : String × String) ≠ ("a:b", "c") ∧
    dbFirst aliasWorld.db "a:b" "c" = none ∧
    (GetConfiguration true faultFree 0
        (GetConfiguration true faultFree 0 aliasWorld "a" "b:c").2 "a:b" "c").1 =
      Except.ok ⟨0, "a:b", "c", "v1", "", 0, 0⟩ := by
  refine ⟨rfl, by decide, rfl, by decide⟩

/-- C7: `ConfigDAO.DeleteConfiguration` first looks the record up by id; if
the lookup fails the whole operation returns that error with the durable
store and cache untouched; on a successful lookup it soft-deletes the row
(keeping a tombstone excluded from reads) and then invalidates the cache
entry under the composite key of the record. -/
theorem delete_lookup_first_then_soft_delete
    (f : Faults) (w : World) (id : Nat) :
    (dbFirstById w.db id = none →
      DeleteConfiguration true f w id = (Except.error OpError.recordNotFound, w)) ∧
    (∀ cfg, dbFirstById w.db id = some cfg →
      f.deleteFails = false → f.delFails = false →
      (DeleteConfiguration true f w id).1 = Except.ok () ∧
      (DeleteConfiguration true f w id).2.db = dbSoftDelete w.db id ∧
      dbFirstById (DeleteConfiguration true f w id).2.db id = none ∧
      (DeleteConfiguration true f w id).2.db.length = w.db.length ∧
      (DeleteConfiguration true f w id).2.cache =
        cacheRemove w.cache (cacheKey cfg.Namespace cfg.Key) ∧
      cacheLookup (DeleteConfiguration true f w id).2.cache
        (cacheKey cfg.Namespace cfg.Key) = none) := by
  constructor
  · intro h
    simp [DeleteConfiguration, h]
  · intro cfg h hdf hdel
    simp [DeleteConfiguration, h, hdf, hdel, dbFirstById_dbSoftDelete,
      dbSoftDelete_length, cacheLookup_cacheRemove]

/-- C7 witness: absent id 9 in the empty world fails the lookup untouched;
present id 7 in `sampleWorld` is soft-deleted and its cache key removed. -/
theorem delete_lookup_first_then_soft_delete_witness :
    (DeleteConfiguration true faultFree emptyWorld 9 =
      (Except.error OpError.recordNotFound, emptyWorld)) ∧
    ((DeleteConfiguration true faultFree sampleWorld 7).1 = Except.ok () ∧
      (DeleteConfiguration true faultFree sampleWorld 7).2.db =
        dbSoftDelete sampleWorld.db 7 ∧
      dbFirstById (DeleteConfiguration true faultFree sampleWorld 7).2.db 7 = none ∧
      (DeleteConfiguration true faultFree sampleWorld 7).2.db.length =
        sampleWorld.db.length ∧
      (DeleteConfiguration true faultFree sampleWorld 7).2.cache =
        cacheRemove sampleWorld.cache
          (cacheKey sampleCfg.Namespace sampleCfg.Key) ∧
      cacheLookup (DeleteConfiguration true faultFree sampleWorld 7).2.cache
        (cacheKey sampleCfg.Namespace sampleCfg.Key) = none) :=
  ⟨(delete_lookup_first_then_soft_delete faultFree emptyWorld 9).1 (by rfl),
   (delete_lookup_first_then_soft_delete faultFree sampleWorld 7).2 sampleCfg
     (by rfl) (by rfl) (by rfl)⟩

/-- C3: `ConfigDAO.CreateConfiguration` inserts into the durable store
first; on insert failure nothing changes and the error propagates; on
success it deletes (does not overwrite) the cache entry under the composite
key of the record, a deletion failure being logged but not propagated; and
create followed immediately by fetch against a cache pre-populated with a
different stale value returns the created durable value, not the stale
cached one. -/
theorem create_insert_first_then_cache_delete
    (f : Faults) (now : Nat) (w : World) (cfg : Configuration) :
    (f.createFails = true →
      CreateConfiguration true f w cfg = (Except.error OpError.storeFailure, w)) ∧
    (f.createFails = false → f.delFails = false →
      (CreateConfiguration true f w cfg).1 = Except.ok (dbInsert w.db cfg).2 ∧
      (CreateConfiguration true f w cfg).2.db = (dbInsert w.db cfg).1 ∧
      (CreateConfiguration true f w cfg).2.cache =
        cacheRemove w.cache (cacheKey cfg.Namespace cfg.Key) ∧
      cacheLookup (CreateConfiguration true f w cfg).2.cache
        (cacheKey cfg.Namespace cfg.Key) = none) ∧
    (f.createFails = false → f.delFails = true →
      (CreateConfiguration true f w cfg).1 = Except.ok (dbInsert w.db cfg).2 ∧
      (CreateConfiguration true f w cfg).2.db = (dbInsert w.db cfg).1 ∧
      (CreateConfiguration true f w cfg).2.cache = w.cache ∧
      (CreateConfiguration true f w cfg).2.logs =
        w.logs ++ ["Failed to invalidate cache"]) ∧
    (f.getFails = false → f.createFails = false → f.delFails = false →
      dbFirst w.db cfg.Namespace cfg.Key = none →
      ∀ e, cacheLookup w.cache (cacheKey cfg.Namespace cfg.Key) = some e →
        e.val ≠ cfg.Value →
        (GetConfiguration true f now (CreateConfiguration true f w cfg).2
            cfg.Namespace cfg.Key).1 = Except.ok (dbInsert w.db cfg).2 ∧
        (dbInsert w.db cfg).2.Value = cfg.Value ∧
        (dbInsert w.db cfg).2.Value ≠ e.val) := by
  obtain ⟨hN, hK, hV⟩ := dbInsert_fields w.db cfg
  refine ⟨?_, ?_, ?_, ?_⟩
  · intro h
    simp [CreateConfiguration, h]
  · intro h1 h2
    simp [CreateConfiguration, h1, h2, cacheLookup_cacheRemove]
  · intro h1 h2
    simp [CreateConfiguration, h1, h2]
  · intro hg h1 h2 hdb e he hne
    have hcreate : (CreateConfiguration true f w cfg).2 =
        { db := (dbInsert w.db cfg).1,
          cache := cacheRemove w.cache (cacheKey cfg.Namespace cfg.Key),
          logs := w.logs } := by
      simp [CreateConfiguration, h1, h2]
    have hsplit : (dbInsert w.db cfg).1 =
        w.db ++ [{ cfg := (dbInsert w.db cfg).2, deleted := false }] := by
      simp [dbInsert]
    have hfirst : dbFirst ((dbInsert w.db cfg).1) cfg.Namespace cfg.Key =
        some (dbInsert w.db cfg).2 := by
      rw [hsplit, dbFirst_append_of_none hdb]
      simp [hN, hK]
    refine ⟨?_, hV, by rw [hV]; exact fun hc => hne hc.symm⟩
    rw [hcreate]
    cases hs : f.setFails <;>
      simp [GetConfiguration, redisGet, hg, cacheLookup_cacheRemove,
        getFromDB, hfirst, hs]

/-- C3 witness: creating ("a", "b", "v2") over a stale cached "v0" and an
empty durable store, then fetching, yields "v2". -/
theorem create_insert_first_then_cache_delete_witness :
    (faultFree.getFails = false ∧ faultFree.createFails = false ∧
      faultFree.delFails = false) ∧
    ((GetConfiguration true faultFree 0
        (CreateConfiguration true faultFree
          ⟨[], [⟨"config:a:b", "v0", 99⟩], []⟩ ⟨0, "a", "b", "v2", "", 0, 0⟩).2
        "a" "b").1 =
      Except.ok (dbInsert ([] : List DBRow) ⟨0, "a", "b", "v2", "", 0, 0⟩).2 ∧
     (dbInsert ([] : List DBRow) ⟨0, "a", "b", "v2", "", 0, 0⟩).2.Value = "v2" ∧
     (dbInsert ([] : List DBRow) ⟨0, "a", "b", "v2", "", 0, 0⟩).2.Value ≠ "v0") :=
  ⟨⟨rfl, rfl, rfl⟩,
   (create_insert_first_then_cache_delete faultFree 0
      ⟨[], [⟨"config:a:b", "v0", 99⟩], []⟩ ⟨0, "a", "b", "v2", "", 0, 0⟩).2.2.2
     (by rfl) (by rfl) (by rfl) (by rfl) ⟨"config:a:b", "v0", 99⟩ (by rfl)
     (by decide)⟩

/-- World with one live row ("a", "b") valued "old" and a cache entry for
that key still holding "old" until instant 200. -/
def staleWorld : World :=
  ⟨[⟨⟨1, "a", "b", "old", "", 0, 0⟩, false⟩], [⟨"config:a:b", "old", 200⟩], []⟩

/-- The same record updated to value "new". -/
def newCfg : Configuration := ⟨1, "a", "b", "new", "", 0, 0⟩

/-- C4 counterexample: with the post-update cache overwrite failing,
`ConfigDAO.UpdateConfiguration` persists "new" and returns success, yet a
fetch ten time units later — inside the 5-minute TTL window — still serves
the stale cached "old". -/
theorem update_stale_cache_counterexample :
    (UpdateConfiguration true setFaulty 50 staleWorld newCfg).1 = Except.ok () ∧
    dbFirst (UpdateConfiguration true setFaulty 50 staleWorld newCfg).2.db
      "a" "b" = some newCfg ∧
    (60 : Nat) < 50 + cacheTTL ∧
    (GetConfiguration true setFaulty 60
        (UpdateConfiguration true setFaulty 50 staleWorld newCfg).2 "a" "b").1 =
      Except.ok ⟨0, "a", "b", "old", "", 0, 0⟩ ∧
    ("old" : String) ≠ "new" := by
  refine ⟨by decide, by decide, by decide, by decide, by decide⟩

/-- C4 amended: after `ConfigDAO.UpdateConfiguration` actually persists a
changed value to the durable store (the store now returns it for the pair)
and returns success, a subsequent fetch within the 5-minute TTL window
returns the new value provided the post-update cache overwrite succeeded —
whether the cache get of that fetch succeeds (serving the overwritten
entry) or fails (falling through to the durable store); when the overwrite
fails, the update still succeeds and the failure is only logged, but a
stale unexpired cache entry may keep being served until its TTL expires. -/
theorem update_then_fetch_returns_new_value
    (f : Faults) (now now2 : Nat) (w : World) (cfg : Configuration)
    (hsave : f.saveFails = false) (hset : f.setFails = false)
    (hwin : now2 < now + cacheTTL)
    (hpersist : dbFirst (dbSave w.db cfg) cfg.Namespace cfg.Key = some cfg) :
    (UpdateConfiguration true f now w cfg).1 = Except.ok () ∧
    (∃ c, (GetConfiguration true f now2 (UpdateConfiguration true f now w cfg).2
        cfg.Namespace cfg.Key).1 = Except.ok c ∧ c.Value = cfg.Value) ∧
    (∀ f2 now3 w2 cfg2, f2.saveFails = false → f2.setFails = true →
      (UpdateConfiguration true f2 now3 w2 cfg2).1 = Except.ok () ∧
      (UpdateConfiguration true f2 now3 w2 cfg2).2.logs =
        w2.logs ++ ["Failed to update cache"]) := by
  refine ⟨by simp [UpdateConfiguration, hsave, hset], ?_, ?_⟩
  · cases hg : f.getFails
    · refine ⟨⟨0, cfg.Namespace, cfg.Key, cfg.Value, "", 0, 0⟩, ?_, rfl⟩
      simp [UpdateConfiguration, hsave, hset, GetConfiguration, redisGet,
        cacheStore, cacheLookup, hg, hwin]
    · refine ⟨cfg, ?_, rfl⟩
      simp [UpdateConfiguration, hsave, hset, GetConfiguration, redisGet,
        hg, getFromDB, hpersist]
  · intro f2 now3 w2 cfg2 h1 h2
    simp [UpdateConfiguration, h1, h2]

/-- C4 amended witness: updating the record of `staleWorld` to "new" with a
working cache overwrite but a failing cache get on the subsequent fetch
still serves "new", from the durable store, inside the TTL window. -/
theorem update_then_fetch_returns_new_value_witness :
    (UpdateConfiguration true getFaulty 50 staleWorld newCfg).1 = Except.ok () ∧
    (∃ c, (GetConfiguration true getFaulty 60
        (UpdateConfiguration true getFaulty 50 staleWorld newCfg).2
        newCfg.Namespace newCfg.Key).1 = Except.ok c ∧ c.Value = newCfg.Value) ∧
    (∀ f2 now3 w2 cfg2, f2.saveFails = false → f2.setFails = true →
      (UpdateConfiguration true f2 now3 w2 cfg2).1 = Except.ok () ∧
      (UpdateConfiguration true f2 now3 w2 cfg2).2.logs =
        w2.logs ++ ["Failed to update cache"]) :=
  update_then_fetch_returns_new_value getFaulty 50 60 staleWorld newCfg
    (by rfl) (by rfl) (by decide) (by rfl)

/-- C9: the duplicate check of `ConfigService.CreateConfiguration` consults
the cache-aware `ConfigDAO.GetSpecificConfiguration`: whenever the cache
holds an unexpired value under the composite key and the cache get
succeeds, the service returns a conflict error and changes nothing — no
durable-store insert and no cache invalidation — even when the durable
store holds no live row for the pair. -/
theorem service_create_conflict_on_cache_hit
    (f : Faults) (now : Nat) (w : World) (ns key : String)
    (v d : Option String) (e : CacheEntry)
    (hns : ns ≠ "") (hkey : key ≠ "")
    (hget : f.getFails = false)
    (hcache : cacheLookup w.cache (cacheKey ns key) = some e)
    (hfresh : now < e.expiry) :
    ConfigServiceCreateConfiguration true f now w ⟨some ns, some key, v, d⟩ =
      (Except.error OpError.conflict, w) := by
  have hhit : redisGet f now w.cache (cacheKey ns key) = GetResult.hit e.val := by
    simp [redisGet, hget, hcache, hfresh]
  simp [ConfigServiceCreateConfiguration, hns, hkey,
    GetSpecificConfiguration, hhit]

/-- C9 witness: a cached value with an empty durable store still yields a
conflict and leaves the world unchanged. -/
theorem service_create_conflict_on_cache_hit_witness :
    ConfigServiceCreateConfiguration true faultFree 0
        ⟨[], [⟨"config:a:b", "stale", 100⟩], []⟩
        ⟨some "a", some "b", some "v", none⟩ =
      (Except.error OpError.conflict,
        ⟨[], [⟨"config:a:b", "stale", 100⟩], []⟩) :=
  service_create_conflict_on_cache_hit faultFree 0
    ⟨[], [⟨"config:a:b", "stale", 100⟩], []⟩ "a" "b" (some "v") none
    ⟨"config:a:b", "stale", 100⟩ (by decide) (by decide) (by rfl) (by rfl)
    (by decide)

/-- C8: `ConfigService.CreateConfiguration` reads the pair before
inserting: when the read finds an existing configuration it fails with a
conflict and nothing is inserted into the durable store; only when the
read finds nothing does it proceed to insert the new record — a
best-effort, non-atomic uniqueness check. -/
theorem service_create_read_before_insert
    (f : Faults) (now : Nat) (w : World) (ns key : String) (v d : Option String)
    (hns : ns ≠ "") (hkey : key ≠ "") :
    ((∃ e, (GetSpecificConfiguration true f now w ns key).1 = Except.ok e) →
      (ConfigServiceCreateConfiguration true f now w
          ⟨some ns, some key, v, d⟩).1 = Except.error OpError.conflict ∧
      (ConfigServiceCreateConfiguration true f now w
          ⟨some ns, some key, v, d⟩).2.db = w.db) ∧
    (∀ e, (GetSpecificConfiguration true f now w ns key).1 = Except.error e →
      f.createFails = false →
      (ConfigServiceCreateConfiguration true f now w
          ⟨some ns, some key, v, d⟩).1 =
        Except.ok (dbInsert w.db
          ⟨0, ns, key, v.getD "", d.getD "", now, now⟩).2 ∧
      (ConfigServiceCreateConfiguration true f now w
          ⟨some ns, some key, v, d⟩).2.db =
        (dbInsert w.db ⟨0, ns, key, v.getD "", d.getD "", now, now⟩).1) := by
  have hspec := GetSpecificConfiguration_db_eq true f now w ns key
  constructor
  · rintro ⟨e, he⟩
    constructor
    · simp [ConfigServiceCreateConfiguration, hns, hkey, he]
    · simp [ConfigServiceCreateConfiguration, hns, hkey, he, hspec]
  · intro e he h1
    rw [← hspec]
    cases hd : f.delFails <;>
      simp [ConfigServiceCreateConfiguration, hns, hkey, he,
        CreateConfiguration, h1, hd]

/-- C8 witness: with an empty world the read finds nothing and the record
is inserted; with `sampleWorld` and its existing ("ns1", "k1") row the
service returns a conflict and the store is untouched. -/
theorem service_create_read_before_insert_witness :
    ((ConfigServiceCreateConfiguration true faultFree 3 emptyWorld
        ⟨some "a", some "b", some "v", none⟩).1 =
      Except.ok (dbInsert emptyWorld.db ⟨0, "a", "b", "v", "", 3, 3⟩).2 ∧
     (ConfigServiceCreateConfiguration true faultFree 3 emptyWorld
        ⟨some "a", some "b", some "v", none⟩).2.db =
      (dbInsert emptyWorld.db ⟨0, "a", "b", "v", "", 3, 3⟩).1) ∧
    ((ConfigServiceCreateConfiguration true faultFree 3 sampleWorld
        ⟨some "ns1", some "k1", some "v", none⟩).1 =
      Except.error OpError.conflict ∧
     (ConfigServiceCreateConfiguration true faultFree 3 sampleWorld
        ⟨some "ns1", some "k1", some "v", none⟩).2.db = sampleWorld.db) :=
  ⟨(service_create_read_before_insert faultFree 3 emptyWorld "a" "b"
      (some "v") none (by decide) (by decide)).2 OpError.recordNotFound
      (by rfl) (by rfl),
   (service_create_read_before_insert faultFree 3 sampleWorld "ns1" "k1"
      (some "v") none (by decide) (by decide)).1
      ⟨sampleCfg, by rfl⟩⟩

/-- C5: with no cache backend configured, fetch, create, update and delete
take a direct durable-store path: the world is changed only in its durable
component, no cache entry is touched, no log entry (hence no cache error)
is produced, and the success/failure outcome and durable-store side
effects coincide with the cache-configured versions (for fetch, with a
cache-configured run that misses). -/
theorem no_cache_mode_equivalence
    (f : Faults) (now : Nat) (w : World) (ns key : String)
    (cfg : Configuration) (id : Nat)
    (hget : f.getFails = false)
    (habsent : cacheLookup w.cache (cacheKey ns key) = none) :
    ((GetConfiguration false f now w ns key).1 =
        (GetConfiguration true f now w ns key).1 ∧
      (GetConfiguration false f now w ns key).2 = w) ∧
    ((CreateConfiguration false f w cfg).1 =
        (CreateConfiguration true f w cfg).1 ∧
      (CreateConfiguration false f w cfg).2.db =
        (CreateConfiguration true f w cfg).2.db ∧
      (CreateConfiguration false f w cfg).2.cache = w.cache ∧
      (CreateConfiguration false f w cfg).2.logs = w.logs) ∧
    ((UpdateConfiguration false f now w cfg).1 =
        (UpdateConfiguration true f now w cfg).1 ∧
      (UpdateConfiguration false f now w cfg).2.db =
        (UpdateConfiguration true f now w cfg).2.db ∧
      (UpdateConfiguration false f now w cfg).2.cache = w.cache ∧
      (UpdateConfiguration false f now w cfg).2.logs = w.logs) ∧
    ((DeleteConfiguration false f w id).1 =
        (DeleteConfiguration true f w id).1 ∧
      (DeleteConfiguration false f w id).2.db =
        (DeleteConfiguration true f w id).2.db ∧
      (DeleteConfiguration false f w id).2.cache = w.cache ∧
      (DeleteConfiguration false f w id).2.logs = w.logs) := by
  refine ⟨?_, ?_, ?_, ?_⟩
  · cases hdb : dbFirst w.db ns key <;> cases hs : f.setFails <;>
      simp [GetConfiguration, redisGet, getFromDB, hget, habsent, hdb, hs]
  · cases hc : f.createFails <;> cases hd : f.delFails <;>
      simp [CreateConfiguration, hc, hd]
  · cases hs : f.saveFails <;> cases hst : f.setFails <;>
      simp [UpdateConfiguration, hs, hst]
  · cases hdb : dbFirstById w.db id <;> cases hdf : f.deleteFails <;>
      cases hd : f.delFails <;> simp [DeleteConfiguration, hdb, hdf, hd]

/-- C5 witness: the equivalence instantiated on `sampleWorld`. -/
theorem no_cache_mode_equivalence_witness :
    ((GetConfiguration false faultFree 0 sampleWorld "ns1" "k1").1 =
        (GetConfiguration true faultFree 0 sampleWorld "ns1" "k1").1 ∧
      (GetConfiguration false faultFree 0 sampleWorld "ns1" "k1").2 =
        sampleWorld) ∧
    ((CreateConfiguration false faultFree sampleWorld sampleCfg).1 =
        (CreateConfiguration true faultFree sampleWorld sampleCfg).1 ∧
      (CreateConfiguration false faultFree sampleWorld sampleCfg).2.db =
        (CreateConfiguration true faultFree sampleWorld sampleCfg).2.db ∧
      (CreateConfiguration false faultFree sampleWorld sampleCfg).2.cache =
        sampleWorld.cache ∧
      (CreateConfiguration false faultFree sampleWorld sampleCfg).2.logs =
        sampleWorld.logs) ∧
    ((UpdateConfiguration false faultFree 0 sampleWorld sampleCfg).1 =
        (UpdateConfiguration true faultFree 0 sampleWorld sampleCfg).1 ∧
      (UpdateConfiguration false faultFree 0 sampleWorld sampleCfg).2.db =
        (UpdateConfiguration true faultFree 0 sampleWorld sampleCfg).2.db ∧
      (UpdateConfiguration false faultFree 0 sampleWorld sampleCfg).2.cache =
        sampleWorld.cache ∧
      (UpdateConfiguration false faultFree 0 sampleWorld sampleCfg).2.logs =
        sampleWorld.logs) ∧
    ((DeleteConfiguration false faultFree sampleWorld 7).1 =
        (DeleteConfiguration true faultFree sampleWorld 7).1 ∧
      (DeleteConfiguration false faultFree sampleWorld 7).2.db =
        (DeleteConfiguration true faultFree sampleWorld 7).2.db ∧
      (DeleteConfiguration false faultFree sampleWorld 7).2.cache =
        sampleWorld.cache ∧
      (DeleteConfiguration false faultFree sampleWorld 7).2.logs =
        sampleWorld.logs) :=
  no_cache_mode_equivalence faultFree 0 sampleWorld "ns1" "k1" sampleCfg 7
    (by rfl) (by rfl)
